import Mathlib

/-
  Verification development for the MiniCompiler1 C-subset front end
  (lexical analyzer, recursive-descent parser, AST analyzer).

  The Python source (code_executor/lexical_analyzer.py, parser.py,
  c_compiler.py) is embedded shallowly:

  * Python exceptions become `Except String` results; the exact message
    strings are reproduced except that Python's quoting of embedded
    values with single quotes is omitted (apostrophe-free messages).
  * `line`/`column` counters are `Nat` (they are only ever incremented
    or reset to 1 in the source).
  * Character classification (`isspace`, `isdigit`, `isalpha`,
    `isalnum`, `lower`) is modelled on ASCII, which is exact for all
    inputs considered here.
  * Recursion in the parser and the analyzer is expressed with an
    explicit fuel parameter; fuel exhaustion surfaces as the error
    message of Python's `RecursionError` and is handled by the same
    top-level handlers that catch every other exception.
  * Python floats produced by `float(token.value)` are represented by
    their source text (no claim inspects numeric magnitude); the
    success/failure of the conversion is modelled by `pyFloatOk`.
-/

namespace MiniC

/-- Token kinds, mirroring `TokenType` in lexical_analyzer.py.
The constructor for the `extern` keyword is spelled `EXTERN_KW`. -/
inductive TokenType where
  | AUTO | BREAK | CASE | CHAR | CONST | CONTINUE | DEFAULT | DO | DOUBLE
  | ELSE | ENUM | EXTERN_KW | FLOAT | FOR | GOTO | IF | INT | LONG
  | REGISTER | RETURN | SHORT | SIGNED | SIZEOF | STATIC | STRUCT
  | SWITCH | TYPEDEF | UNION | UNSIGNED | VOID | VOLATILE | WHILE
  | IDENTIFIER | NUMBER | STRING | CHARACTER
  | PLUS | MINUS | MULTIPLY | DIVIDE | MODULO | ASSIGN | EQUAL
  | NOT_EQUAL | LESS_THAN | LESS_EQUAL | GREATER_THAN | GREATER_EQUAL
  | AND | OR | NOT | BITWISE_AND | BITWISE_OR | BITWISE_XOR | BITWISE_NOT
  | LEFT_SHIFT | RIGHT_SHIFT | INCREMENT | DECREMENT
  | PLUS_ASSIGN | MINUS_ASSIGN | MULTIPLY_ASSIGN | DIVIDE_ASSIGN
  | MODULO_ASSIGN | AND_ASSIGN | OR_ASSIGN | XOR_ASSIGN
  | LEFT_SHIFT_ASSIGN | RIGHT_SHIFT_ASSIGN
  | LPAREN | RPAREN | LBRACKET | RBRACKET | LBRACE | RBRACE
  | COMMA | SEMICOLON | COLON | DOT | ARROW
  | HASH | INCLUDE | DEFINE | IFDEF | IFNDEF | ENDIF | ELIF | ELSE_PP
  | NEWLINE | COMMENT | COMMENT_BLOCK | EOF
  deriving DecidableEq, Repr

/-- Rendering of a token kind as Python's `str(TokenType.X)`, used in
parser error messages. -/
def typeName : TokenType → String
  | .AUTO => "TokenType.AUTO" | .BREAK => "TokenType.BREAK"
  | .CASE => "TokenType.CASE" | .CHAR => "TokenType.CHAR"
  | .CONST => "TokenType.CONST" | .CONTINUE => "TokenType.CONTINUE"
  | .DEFAULT => "TokenType.DEFAULT" | .DO => "TokenType.DO"
  | .DOUBLE => "TokenType.DOUBLE" | .ELSE => "TokenType.ELSE"
  | .ENUM => "TokenType.ENUM" | .EXTERN_KW => "TokenType.EXTERN"
  | .FLOAT => "TokenType.FLOAT" | .FOR => "TokenType.FOR"
  | .GOTO => "TokenType.GOTO" | .IF => "TokenType.IF"
  | .INT => "TokenType.INT" | .LONG => "TokenType.LONG"
  | .REGISTER => "TokenType.REGISTER" | .RETURN => "TokenType.RETURN"
  | .SHORT => "TokenType.SHORT" | .SIGNED => "TokenType.SIGNED"
  | .SIZEOF => "TokenType.SIZEOF" | .STATIC => "TokenType.STATIC"
  | .STRUCT => "TokenType.STRUCT" | .SWITCH => "TokenType.SWITCH"
  | .TYPEDEF => "TokenType.TYPEDEF" | .UNION => "TokenType.UNION"
  | .UNSIGNED => "TokenType.UNSIGNED" | .VOID => "TokenType.VOID"
  | .VOLATILE => "TokenType.VOLATILE" | .WHILE => "TokenType.WHILE"
  | .IDENTIFIER => "TokenType.IDENTIFIER" | .NUMBER => "TokenType.NUMBER"
  | .STRING => "TokenType.STRING" | .CHARACTER => "TokenType.CHARACTER"
  | .PLUS => "TokenType.PLUS" | .MINUS => "TokenType.MINUS"
  | .MULTIPLY => "TokenType.MULTIPLY" | .DIVIDE => "TokenType.DIVIDE"
  | .MODULO => "TokenType.MODULO" | .ASSIGN => "TokenType.ASSIGN"
  | .EQUAL => "TokenType.EQUAL" | .NOT_EQUAL => "TokenType.NOT_EQUAL"
  | .LESS_THAN => "TokenType.LESS_THAN" | .LESS_EQUAL => "TokenType.LESS_EQUAL"
  | .GREATER_THAN => "TokenType.GREATER_THAN"
  | .GREATER_EQUAL => "TokenType.GREATER_EQUAL"
  | .AND => "TokenType.AND" | .OR => "TokenType.OR" | .NOT => "TokenType.NOT"
  | .BITWISE_AND => "TokenType.BITWISE_AND" | .BITWISE_OR => "TokenType.BITWISE_OR"
  | .BITWISE_XOR => "TokenType.BITWISE_XOR" | .BITWISE_NOT => "TokenType.BITWISE_NOT"
  | .LEFT_SHIFT => "TokenType.LEFT_SHIFT" | .RIGHT_SHIFT => "TokenType.RIGHT_SHIFT"
  | .INCREMENT => "TokenType.INCREMENT" | .DECREMENT => "TokenType.DECREMENT"
  | .PLUS_ASSIGN => "TokenType.PLUS_ASSIGN" | .MINUS_ASSIGN => "TokenType.MINUS_ASSIGN"
  | .MULTIPLY_ASSIGN => "TokenType.MULTIPLY_ASSIGN"
  | .DIVIDE_ASSIGN => "TokenType.DIVIDE_ASSIGN"
  | .MODULO_ASSIGN => "TokenType.MODULO_ASSIGN"
  | .AND_ASSIGN => "TokenType.AND_ASSIGN" | .OR_ASSIGN => "TokenType.OR_ASSIGN"
  | .XOR_ASSIGN => "TokenType.XOR_ASSIGN"
  | .LEFT_SHIFT_ASSIGN => "TokenType.LEFT_SHIFT_ASSIGN"
  | .RIGHT_SHIFT_ASSIGN => "TokenType.RIGHT_SHIFT_ASSIGN"
  | .LPAREN => "TokenType.LPAREN" | .RPAREN => "TokenType.RPAREN"
  | .LBRACKET => "TokenType.LBRACKET" | .RBRACKET => "TokenType.RBRACKET"
  | .LBRACE => "TokenType.LBRACE" | .RBRACE => "TokenType.RBRACE"
  | .COMMA => "TokenType.COMMA" | .SEMICOLON => "TokenType.SEMICOLON"
  | .COLON => "TokenType.COLON" | .DOT => "TokenType.DOT"
  | .ARROW => "TokenType.ARROW"
  | .HASH => "TokenType.HASH" | .INCLUDE => "TokenType.INCLUDE"
  | .DEFINE => "TokenType.DEFINE" | .IFDEF => "TokenType.IFDEF"
  | .IFNDEF => "TokenType.IFNDEF" | .ENDIF => "TokenType.ENDIF"
  | .ELIF => "TokenType.ELIF" | .ELSE_PP => "TokenType.ELSE_PP"
  | .NEWLINE => "TokenType.NEWLINE" | .COMMENT => "TokenType.COMMENT"
  | .COMMENT_BLOCK => "TokenType.COMMENT_BLOCK" | .EOF => "TokenType.EOF"

/-- A lexical token: kind, exact lexeme text, and 1-based position,
mirroring class `Token`. -/
structure Token where
  type : TokenType
  value : String
  line : Nat
  column : Nat
  deriving DecidableEq, Repr

/-- The single-quote character (used for character literals). -/
def squote : Char := Char.ofNat 39

/-- The double-quote character (used for string literals). -/
def dquote : Char := Char.ofNat 34

/-- Python `str.isspace` restricted to ASCII. -/
def isPySpace (c : Char) : Bool :=
  c = ' ' || c = '\t' || c = '\n' || c = '\r' || c = '\x0b' || c = '\x0c'

/-- Characters accepted inside a numeric literal after the initial
digit: digits, the dot, and hex letters compared case-insensitively
(Python `source[current].isdigit() or source[current] == '.' or
source[current].lower() in 'abcdef'`). -/
def numChar (c : Char) : Bool :=
  c.isDigit || c = '.' ||
    (c.toLower = 'a' || c.toLower = 'b' || c.toLower = 'c' ||
     c.toLower = 'd' || c.toLower = 'e' || c.toLower = 'f')

/-- Characters accepted inside an identifier or directive word
(Python `isalnum() or == underscore`). -/
def idChar (c : Char) : Bool :=
  c.isAlphanum || c = '_'

/-- The keyword table `self.keywords`, keyed by the lowercased word. -/
def keywords : String → Option TokenType
  | "auto" => some .AUTO
  | "break" => some .BREAK
  | "case" => some .CASE
  | "char" => some .CHAR
  | "const" => some .CONST
  | "continue" => some .CONTINUE
  | "default" => some .DEFAULT
  | "do" => some .DO
  | "double" => some .DOUBLE
  | "else" => some .ELSE
  | "enum" => some .ENUM
  | "extern" => some .EXTERN_KW
  | "float" => some .FLOAT
  | "for" => some .FOR
  | "goto" => some .GOTO
  | "if" => some .IF
  | "int" => some .INT
  | "long" => some .LONG
  | "register" => some .REGISTER
  | "return" => some .RETURN
  | "short" => some .SHORT
  | "signed" => some .SIGNED
  | "sizeof" => some .SIZEOF
  | "static" => some .STATIC
  | "struct" => some .STRUCT
  | "switch" => some .SWITCH
  | "typedef" => some .TYPEDEF
  | "union" => some .UNION
  | "unsigned" => some .UNSIGNED
  | "void" => some .VOID
  | "volatile" => some .VOLATILE
  | "while" => some .WHILE
  | _ => none

/-- The operator table `self.operators` (keys of length 3, 2 and 1;
a slice of length n can only match a key of length n). -/
def operators : String → Option TokenType
  | "++" => some .INCREMENT
  | "--" => some .DECREMENT
  | "->" => some .ARROW
  | "<<=" => some .LEFT_SHIFT_ASSIGN
  | ">>=" => some .RIGHT_SHIFT_ASSIGN
  | "<<" => some .LEFT_SHIFT
  | ">>" => some .RIGHT_SHIFT
  | "==" => some .EQUAL
  | "!=" => some .NOT_EQUAL
  | "<=" => some .LESS_EQUAL
  | ">=" => some .GREATER_EQUAL
  | "+=" => some .PLUS_ASSIGN
  | "-=" => some .MINUS_ASSIGN
  | "*=" => some .MULTIPLY_ASSIGN
  | "/=" => some .DIVIDE_ASSIGN
  | "%=" => some .MODULO_ASSIGN
  | "&=" => some .AND_ASSIGN
  | "|=" => some .OR_ASSIGN
  | "^=" => some .XOR_ASSIGN
  | "&&" => some .AND
  | "||" => some .OR
  | "+" => some .PLUS
  | "-" => some .MINUS
  | "*" => some .MULTIPLY
  | "/" => some .DIVIDE
  | "%" => some .MODULO
  | "=" => some .ASSIGN
  | "<" => some .LESS_THAN
  | ">" => some .GREATER_THAN
  | "!" => some .NOT
  | "&" => some .BITWISE_AND
  | "|" => some .BITWISE_OR
  | "^" => some .BITWISE_XOR
  | "~" => some .BITWISE_NOT
  | _ => none

/-- The delimiter table `self.delimiters` (all keys are single
characters). -/
def delimiters : Char → Option TokenType
  | '(' => some .LPAREN
  | ')' => some .RPAREN
  | '[' => some .LBRACKET
  | ']' => some .RBRACKET
  | '{' => some .LBRACE
  | '}' => some .RBRACE
  | ',' => some .COMMA
  | ';' => some .SEMICOLON
  | ':' => some .COLON
  | '.' => some .DOT
  | '#' => some .HASH
  | _ => none

/-- The preprocessor-directive table `self.preprocessor`. -/
def preprocessor : String → Option TokenType
  | "include" => some .INCLUDE
  | "define" => some .DEFINE
  | "ifdef" => some .IFDEF
  | "ifndef" => some .IFNDEF
  | "endif" => some .ENDIF
  | "elif" => some .ELIF
  | "else" => some .ELSE_PP
  | _ => none

/-- The block-comment scan loop (`while current < len(source) - 1`):
given the characters after the opening slash-star, returns the
consumed characters, the remaining characters, and the updated
line/column. The closing star-slash, when found, is part of the
consumed text; when the input runs out the scan stops with the final
character unconsumed (and, for an empty remainder, nothing consumed).
The column is not advanced for the two closing characters, exactly as
in the source. -/
def scanBlock : List Char → Nat → Nat → (List Char × List Char × Nat × Nat)
  | c1 :: c2 :: r, line, col =>
    if c1 = '*' && c2 = '/' then
      ([c1, c2], r, line, col)
    else if c1 = '\n' then
      let res := scanBlock (c2 :: r) (line + 1) 1
      (c1 :: res.1, res.2.1, res.2.2.1, res.2.2.2)
    else
      let res := scanBlock (c2 :: r) line (col + 1)
      (c1 :: res.1, res.2.1, res.2.2.1, res.2.2.2)
  | r, line, col => ([], r, line, col)

/-- The string/character-literal scan loop: collects characters up to
the closing quote `q`; `none` models the exception raised on an
embedded newline or end of input. -/
def scanLit (q : Char) : List Char → Option (List Char × List Char)
  | [] => none
  | c :: r =>
    if c = q then some ([], r)
    else if c = '\n' then none
    else match scanLit q r with
      | some (v, rest) => some (c :: v, rest)
      | none => none

/-- The whitespace skip after a hash sign, with line/column updates
(no Newline token is emitted here, exactly as in the source). -/
def skipWs : List Char → Nat → Nat → (List Char × Nat × Nat)
  | [], line, col => ([], line, col)
  | c :: r, line, col =>
    if isPySpace c then
      if c = '\n' then skipWs r (line + 1) 1 else skipWs r line (col + 1)
    else (c :: r, line, col)

/-- One step of `tokenize` for the branches below the comment
handling: strings, character literals, numbers, identifiers/keywords,
preprocessor directives, operators, delimiters, and the unknown
character error. Returns the emitted token, the remaining characters,
and the updated line/column. -/
def lexOther (c : Char) (rest : List Char) (line col : Nat) :
    Except String (Token × List Char × Nat × Nat) :=
  if c = dquote then
    match scanLit dquote rest with
    | some (v, r2) =>
      .ok (⟨.STRING, String.mk v, line, col + 1⟩, r2, line, col + v.length + 3)
    | none =>
      .error ("Unterminated string at line " ++ toString line ++
        ", column " ++ toString (col + 1))
  else if c = squote then
    match scanLit squote rest with
    | some (v, r2) =>
      .ok (⟨.CHARACTER, String.mk v, line, col + 1⟩, r2, line, col + v.length + 3)
    | none =>
      .error ("Unterminated character literal at line " ++ toString line ++
        ", column " ++ toString (col + 1))
  else if c.isDigit then
    let cs := List.takeWhile numChar (c :: rest)
    .ok (⟨.NUMBER, String.mk cs, line, col⟩,
      List.dropWhile numChar (c :: rest), line, col + cs.length)
  else if c.isAlpha || c = '_' then
    let cs := List.takeWhile idChar (c :: rest)
    let s := String.mk cs
    let tk := match keywords (String.mk (cs.map Char.toLower)) with
      | some k => Token.mk k s line col
      | none => Token.mk .IDENTIFIER s line col
    .ok (tk, List.dropWhile idChar (c :: rest), line, col + cs.length)
  else if c = '#' then
    let ws := skipWs rest line (col + 1)
    let r1 := ws.1
    let line1 := ws.2.1
    let col1 := ws.2.2
    let dirChars := List.takeWhile idChar r1
    let directive := String.mk (dirChars.map Char.toLower)
    match preprocessor directive with
    | some k =>
      .ok (⟨k, directive, line1, col1⟩, List.dropWhile idChar r1,
        line1, col1 + dirChars.length)
    | none =>
      .ok (⟨.HASH, "#", line1, col1⟩, r1, line1, col1 + dirChars.length)
  else
    let r := c :: rest
    if r.length ≥ 3 then
      match operators (String.mk (r.take 3)) with
      | some k =>
        .ok (⟨k, String.mk (r.take 3), line, col⟩, r.drop 3, line, col + 3)
      | none => lexOp r line col
    else lexOp r line col
where
  /-- The two-character, one-character, and delimiter fallbacks. -/
  lexOp (r : List Char) (line col : Nat) :
      Except String (Token × List Char × Nat × Nat) :=
    if r.length ≥ 2 then
      match operators (String.mk (r.take 2)) with
      | some k =>
        .ok (⟨k, String.mk (r.take 2), line, col⟩, r.drop 2, line, col + 2)
      | none => lexOp1 r line col
    else lexOp1 r line col
  /-- The single-character operator, delimiter, and error fallbacks. -/
  lexOp1 (r : List Char) (line col : Nat) :
      Except String (Token × List Char × Nat × Nat) :=
    match r with
    | [] => .error "internal: empty input in lexOp1"
    | c :: rest =>
      match operators (String.mk [c]) with
      | some k => .ok (⟨k, String.mk [c], line, col⟩, rest, line, col + 1)
      | none =>
        match delimiters c with
        | some k => .ok (⟨k, String.mk [c], line, col⟩, rest, line, col + 1)
        | none =>
          .error ("Unknown character " ++ String.mk [c] ++ " at line " ++
            toString line ++ ", column " ++ toString col)

/-- The main `tokenize` loop, by remaining-length fuel. Whitespace and
the two comment forms are handled here; all other branches are in
`lexOther`. -/
def tokFuel : Nat → List Char → Nat → Nat → Except String (List Token)
  | _, [], line, col => .ok [⟨.EOF, "", line, col⟩]
  | 0, _ :: _, _, _ => .error "lexer fuel exhausted"
  | fuel + 1, c :: rest, line, col =>
    if isPySpace c then
      if c = '\n' then
        (tokFuel fuel rest (line + 1) 1).map (⟨.NEWLINE, "\n", line, col⟩ :: ·)
      else
        tokFuel fuel rest line (col + 1)
    else if c = '/' then
      match rest with
      | n :: r2 =>
        if n = '/' then
          let cs := List.takeWhile (fun ch => ¬ (ch = '\n')) (c :: rest)
          (tokFuel fuel (List.dropWhile (fun ch => ¬ (ch = '\n')) (c :: rest))
              line (col + cs.length)).map
            (⟨.COMMENT, String.mk cs, line, col⟩ :: ·)
        else if n = '*' then
          let sb := scanBlock r2 line (col + 2)
          (tokFuel fuel sb.2.1 sb.2.2.1 sb.2.2.2).map
            (⟨.COMMENT_BLOCK, String.mk ('/' :: '*' :: sb.1),
              sb.2.2.1, sb.2.2.2⟩ :: ·)
        else
          match lexOther c rest line col with
          | .error e => .error e
          | .ok (tk, r3, line3, col3) =>
            (tokFuel fuel r3 line3 col3).map (tk :: ·)
      | [] =>
        match lexOther c rest line col with
        | .error e => .error e
        | .ok (tk, r3, line3, col3) =>
          (tokFuel fuel r3 line3 col3).map (tk :: ·)
    else
      match lexOther c rest line col with
      | .error e => .error e
      | .ok (tk, r3, line3, col3) =>
        (tokFuel fuel r3 line3 col3).map (tk :: ·)

/-- `LexicalAnalyzer.tokenize`: the fuel `length + 1` is an upper
bound on the number of loop iterations, since every iteration consumes
at least one character. -/
def tokenize (source : String) : Except String (List Token) :=
  tokFuel (source.data.length + 1) source.data 1 1

mutual

/-- An AST node, mirroring class `ASTNode` in parser.py: a production
tag string, a value, and a list of children. -/
inductive ASTNode where
  | mk (node_type : String) (value : NodeValue) (children : List Child)

/-- The dynamically-typed `value` slot of an `ASTNode`: Python `None`,
a string, a float (represented by the literal text it was converted
from), a nested node (type specifiers, expression-statement bodies),
or a list of nodes (compound-statement bodies). -/
inductive NodeValue where
  | none
  | str (s : String)
  | num (s : String)
  | node (n : ASTNode)
  | nodeList (l : List ASTNode)

/-- An entry of an `ASTNode`'s `children` list: a node, Python `None`
(optional statements of if/for/while/do-while), or a raw `Token`
(parameter names, member-access identifiers). -/
inductive Child where
  | node (n : ASTNode)
  | none
  | token (t : Token)

end

/-- Production tag of a node. -/
def ASTNode.node_type : ASTNode → String
  | .mk t _ _ => t

/-- Value slot of a node. -/
def ASTNode.value : ASTNode → NodeValue
  | .mk _ v _ => v

/-- Children list of a node. -/
def ASTNode.children : ASTNode → List Child
  | .mk _ _ cs => cs

/-- Wrap an optional statement as a child entry (Python stores the
`Optional[ASTNode]` directly in the children list). -/
def optChild : Option ASTNode → Child
  | some n => .node n
  | Option.none => .none

/-- Python `self.tokens[self.current]`: an out-of-range index raises
`IndexError("list index out of range")`. -/
def listGet (tokens : List Token) (i : Nat) : Except String Token :=
  match tokens.get? i with
  | some t => .ok t
  | Option.none => .error "list index out of range"

/-- `Parser.expect`: demand a token of the given kind at position `i`
and advance. -/
def expect (tokens : List Token) (i : Nat) (expected : TokenType) :
    Except String (Token × Nat) :=
  match tokens.get? i with
  | Option.none =>
    .error ("Expected " ++ typeName expected ++ ", but reached end of input")
  | some t =>
    if t.type = expected then .ok (t, i + 1)
    else
      .error ("Expected " ++ typeName expected ++ ", but got " ++
        typeName t.type ++ " at line " ++ toString t.line ++
        ", column " ++ toString t.column)

/-- Success of Python `float(s)` (sign, fixed-point part with at most
one dot, optional exponent, or inf/infinity/nan case-insensitively;
underscore digit separators are omitted from the model — the lexer
never produces them and no claim depends on this predicate's exact
domain). -/
def pyFixed (cs : List Char) : Bool :=
  let intPart := cs.takeWhile Char.isDigit
  match cs.dropWhile Char.isDigit with
  | [] => !intPart.isEmpty
  | c :: frac =>
    c = '.' && frac.all Char.isDigit && (!intPart.isEmpty || !frac.isEmpty)

/-- Mantissa/exponent split for `pyFloatOk`. -/
def pyFloatBody (cs : List Char) : Bool :=
  let mant := cs.takeWhile (fun c => ¬ (c.toLower = 'e'))
  match cs.dropWhile (fun c => ¬ (c.toLower = 'e')) with
  | [] => pyFixed mant
  | _ :: ex =>
    let ex := match ex with
      | c :: r => if c = '+' || c = '-' then r else c :: r
      | [] => []
    pyFixed mant && !ex.isEmpty && ex.all Char.isDigit

/-- Whether Python `float(s)` succeeds. -/
def pyFloatOk (s : String) : Bool :=
  let cs := s.data.dropWhile isPySpace
  let cs := (cs.reverse.dropWhile isPySpace).reverse
  let cs := match cs with
    | c :: r => if c = '+' || c = '-' then r else c :: r
    | [] => []
  let low := cs.map Char.toLower
  if low = "inf".data || low = "infinity".data || low = "nan".data then true
  else pyFloatBody cs

/-- Message of Python's `RecursionError`, used for fuel exhaustion in
the parser and analyzer embeddings; it is caught by the same top-level
handlers as every other exception. -/
def recErr : String := "maximum recursion depth exceeded"

/-- The per-production parsing functions of class `Parser`, one
record per fuel level: each field consumes one unit of fuel per call,
mirroring one level of Python call depth. -/
structure ParserFns where
  /-- `Parser.parse_program`: wraps the top-level loop. -/
  parse_program : List Token → Nat → Except String (ASTNode × Nat)
  /-- The `while` loop of `parse_program`: includes, defines and
declarations are collected; unknown tokens are skipped. -/
  programLoop : List Token → Nat → List Child → Except String (List Child × Nat)
  /-- `Parser.parse_include`. -/
  parse_include : List Token → Nat → Except String (ASTNode × Nat)
  /-- `Parser.parse_define`. -/
  parse_define : List Token → Nat → Except String (ASTNode × Nat)
  /-- `Parser.parse_declaration`. -/
  parse_declaration : List Token → Nat → Except String (ASTNode × Nat)
  /-- `Parser.parse_type_specifier`. -/
  parse_type_specifier : List Token → Nat → Except String (ASTNode × Nat)
  /-- `Parser.parse_struct_declaration`. -/
  parse_struct_declaration : List Token → Nat → Except String (ASTNode × Nat)
  /-- The member loop of `parse_struct_declaration`: primitive-typed
members are parsed, every other token inside the braces is skipped. -/
  structMemberLoop : List Token → Nat → List Child → Except String (List Child × Nat)
  /-- `Parser.parse_struct_member`. -/
  parse_struct_member : List Token → Nat → Except String (ASTNode × Nat)
  /-- `Parser.parse_declarator`. -/
  parse_declarator : List Token → Nat → Except String (ASTNode × Nat)
  /-- The `while True` parameter loop of `parse_declarator`. -/
  paramLoop : List Token → Nat → List Child → Except String (List Child × Nat)
  /-- `Parser.parse_compound_statement`: the statement list is stored in
the value slot (children stay empty), exactly as in the source. -/
  parse_compound_statement : List Token → Nat → Except String (ASTNode × Nat)
  /-- The statement loop of `parse_compound_statement`. -/
  stmtLoop : List Token → Nat → List ASTNode → Except String (List ASTNode × Nat)
  /-- `Parser.parse_statement`: may produce no node (end of input or a
skipped unknown token). -/
  parse_statement : List Token → Nat → Except String (Option ASTNode × Nat)
  /-- `Parser.parse_if_statement`: the then/else slots hold `None` when
no statement was produced. -/
  parse_if_statement : List Token → Nat → Except String (ASTNode × Nat)
  /-- `Parser.parse_for_statement`. -/
  parse_for_statement : List Token → Nat → Except String (ASTNode × Nat)
  /-- `Parser.parse_while_statement`. -/
  parse_while_statement : List Token → Nat → Except String (ASTNode × Nat)
  /-- `Parser.parse_do_while_statement`. -/
  parse_do_while_statement : List Token → Nat → Except String (ASTNode × Nat)
  /-- `Parser.parse_return_statement`. -/
  parse_return_statement : List Token → Nat → Except String (ASTNode × Nat)
  /-- `Parser.parse_break_statement`. -/
  parse_break_statement : List Token → Nat → Except String (ASTNode × Nat)
  /-- `Parser.parse_continue_statement`. -/
  parse_continue_statement : List Token → Nat → Except String (ASTNode × Nat)
  /-- `Parser.parse_variable_declaration` (statement level). -/
  parse_variable_declaration : List Token → Nat → Except String (ASTNode × Nat)
  /-- `Parser.parse_expression_statement`: the expression is stored in
the value slot. -/
  parse_expression_statement : List Token → Nat → Except String (ASTNode × Nat)
  /-- `Parser.parse_expression`. -/
  parse_expression : List Token → Nat → Except String (ASTNode × Nat)
  /-- `Parser.parse_assignment_expression` (right-associative). -/
  parse_assignment_expression : List Token → Nat → Except String (ASTNode × Nat)
  /-- `Parser.parse_logical_or_expression`. -/
  parse_logical_or_expression : List Token → Nat → Except String (ASTNode × Nat)
  /-- The operator loop of `parse_logical_or_expression`. -/
  orLoop : List Token → Nat → ASTNode → Except String (ASTNode × Nat)
  /-- `Parser.parse_logical_and_expression`. -/
  parse_logical_and_expression : List Token → Nat → Except String (ASTNode × Nat)
  /-- The operator loop of `parse_logical_and_expression`. -/
  andLoop : List Token → Nat → ASTNode → Except String (ASTNode × Nat)
  /-- `Parser.parse_equality_expression`. -/
  parse_equality_expression : List Token → Nat → Except String (ASTNode × Nat)
  /-- The operator loop of `parse_equality_expression`. -/
  eqLoop : List Token → Nat → ASTNode → Except String (ASTNode × Nat)
  /-- `Parser.parse_relational_expression`. -/
  parse_relational_expression : List Token → Nat → Except String (ASTNode × Nat)
  /-- The operator loop of `parse_relational_expression`. -/
  relLoop : List Token → Nat → ASTNode → Except String (ASTNode × Nat)
  /-- `Parser.parse_shift_expression`. -/
  parse_shift_expression : List Token → Nat → Except String (ASTNode × Nat)
  /-- The operator loop of `parse_shift_expression`. -/
  shiftLoop : List Token → Nat → ASTNode → Except String (ASTNode × Nat)
  /-- `Parser.parse_additive_expression`. -/
  parse_additive_expression : List Token → Nat → Except String (ASTNode × Nat)
  /-- The operator loop of `parse_additive_expression`. -/
  addLoop : List Token → Nat → ASTNode → Except String (ASTNode × Nat)
  /-- `Parser.parse_multiplicative_expression`. -/
  parse_multiplicative_expression : List Token → Nat → Except String (ASTNode × Nat)
  /-- The operator loop of `parse_multiplicative_expression`. -/
  mulLoop : List Token → Nat → ASTNode → Except String (ASTNode × Nat)
  /-- `Parser.parse_unary_expression`. -/
  parse_unary_expression : List Token → Nat → Except String (ASTNode × Nat)
  /-- `Parser.parse_postfix_expression`. -/
  parse_postfix_expression : List Token → Nat → Except String (ASTNode × Nat)
  /-- The postfix-operator loop of `parse_postfix_expression`: indexing,
calls, increment/decrement, and member access chain uniformly. Member
names are stored as raw tokens in the children list, exactly as in the
source. -/
  postfixLoop : List Token → Nat → ASTNode → Except String (ASTNode × Nat)
  /-- The argument loop of a function call in `parse_postfix_expression`. -/
  argLoop : List Token → Nat → List Child → Except String (List Child × Nat)
  /-- `Parser.parse_primary_expression`. A number literal is converted
with `float`, which can itself raise. -/
  parse_primary_expression : List Token → Nat → Except String (ASTNode × Nat)

/-- Fuel exhaustion: every production raises `RecursionError`, to be
caught by `parse`. -/
def parserStop : ParserFns where
  parse_program := fun _ _ => .error recErr
  programLoop := fun _ _ _ => .error recErr
  parse_include := fun _ _ => .error recErr
  parse_define := fun _ _ => .error recErr
  parse_declaration := fun _ _ => .error recErr
  parse_type_specifier := fun _ _ => .error recErr
  parse_struct_declaration := fun _ _ => .error recErr
  structMemberLoop := fun _ _ _ => .error recErr
  parse_struct_member := fun _ _ => .error recErr
  parse_declarator := fun _ _ => .error recErr
  paramLoop := fun _ _ _ => .error recErr
  parse_compound_statement := fun _ _ => .error recErr
  stmtLoop := fun _ _ _ => .error recErr
  parse_statement := fun _ _ => .error recErr
  parse_if_statement := fun _ _ => .error recErr
  parse_for_statement := fun _ _ => .error recErr
  parse_while_statement := fun _ _ => .error recErr
  parse_do_while_statement := fun _ _ => .error recErr
  parse_return_statement := fun _ _ => .error recErr
  parse_break_statement := fun _ _ => .error recErr
  parse_continue_statement := fun _ _ => .error recErr
  parse_variable_declaration := fun _ _ => .error recErr
  parse_expression_statement := fun _ _ => .error recErr
  parse_expression := fun _ _ => .error recErr
  parse_assignment_expression := fun _ _ => .error recErr
  parse_logical_or_expression := fun _ _ => .error recErr
  orLoop := fun _ _ _ => .error recErr
  parse_logical_and_expression := fun _ _ => .error recErr
  andLoop := fun _ _ _ => .error recErr
  parse_equality_expression := fun _ _ => .error recErr
  eqLoop := fun _ _ _ => .error recErr
  parse_relational_expression := fun _ _ => .error recErr
  relLoop := fun _ _ _ => .error recErr
  parse_shift_expression := fun _ _ => .error recErr
  shiftLoop := fun _ _ _ => .error recErr
  parse_additive_expression := fun _ _ => .error recErr
  addLoop := fun _ _ _ => .error recErr
  parse_multiplicative_expression := fun _ _ => .error recErr
  mulLoop := fun _ _ _ => .error recErr
  parse_unary_expression := fun _ _ => .error recErr
  parse_postfix_expression := fun _ _ => .error recErr
  postfixLoop := fun _ _ _ => .error recErr
  argLoop := fun _ _ _ => .error recErr
  parse_primary_expression := fun _ _ => .error recErr

set_option maxHeartbeats 3200000 in
/-- One fuel level of the parser: every recursive call goes through
`p`, the functions one fuel level down. -/
def parserStep (p : ParserFns) : ParserFns where
  parse_program := fun tokens i => do
    let (cs, j) ← p.programLoop tokens i []
    .ok (ASTNode.mk "PROGRAM" .none cs, j)
  programLoop := fun tokens i acc =>
    match tokens.get? i with
    | Option.none => .ok (acc, i)
    | some t =>
      if t.type = .EOF then .ok (acc, i)
      else if t.type = .INCLUDE then do
        let (n, j) ← p.parse_include tokens i
        p.programLoop tokens j (acc ++ [.node n])
      else if t.type = .DEFINE then do
        let (n, j) ← p.parse_define tokens i
        p.programLoop tokens j (acc ++ [.node n])
      else if t.type = .INT ∨ t.type = .CHAR ∨ t.type = .FLOAT ∨
          t.type = .DOUBLE ∨ t.type = .VOID ∨ t.type = .STRUCT then do
        let (n, j) ← p.parse_declaration tokens i
        p.programLoop tokens j (acc ++ [.node n])
      else
        p.programLoop tokens (i + 1) acc
  parse_include := fun tokens i => do
    let (_, i) ← expect tokens i .INCLUDE
    let t ← listGet tokens i
    if t.type = .STRING then do
      let (header, i) ← expect tokens i .STRING
      .ok (ASTNode.mk "INCLUDE" (.str header.value) [], i)
    else if t.type = .LESS_THAN then do
      let (_, i) ← expect tokens i .LESS_THAN
      let (header, i) ← expect tokens i .IDENTIFIER
      let (_, i) ← expect tokens i .GREATER_THAN
      .ok (ASTNode.mk "INCLUDE" (.str ("<" ++ header.value ++ ">")) [], i)
    else
      .error ("Expected string or <header> at line " ++ toString t.line)
  parse_define := fun tokens i => do
    let (_, i) ← expect tokens i .DEFINE
    let (macroTok, i) ← expect tokens i .IDENTIFIER
    match tokens.get? i with
    | some t =>
      if ¬ (t.type = .NEWLINE) then do
        let (v, j) ← p.parse_expression tokens i
        .ok (ASTNode.mk "DEFINE" (.str macroTok.value) [.node v], j)
      else .ok (ASTNode.mk "DEFINE" (.str macroTok.value) [], i)
    | Option.none => .ok (ASTNode.mk "DEFINE" (.str macroTok.value) [], i)
  parse_declaration := fun tokens i => do
    let (type_spec, i) ← p.parse_type_specifier tokens i
    let (declarator, i) ← p.parse_declarator tokens i
    let t ← listGet tokens i
    if t.type = .SEMICOLON then do
      let (_, i) ← expect tokens i .SEMICOLON
      .ok (ASTNode.mk "VARIABLE_DECLARATION" (.node type_spec)
        [.node declarator], i)
    else if t.type = .LBRACE then do
      let (body, i) ← p.parse_compound_statement tokens i
      .ok (ASTNode.mk "FUNCTION_DEFINITION" (.node type_spec)
        [.node declarator, .node body], i)
    else do
      let (_, i) ← expect tokens i .SEMICOLON
      .ok (ASTNode.mk "FUNCTION_DECLARATION" (.node type_spec)
        [.node declarator], i)
  parse_type_specifier := fun tokens i => do
    let t ← listGet tokens i
    if t.type = .INT ∨ t.type = .CHAR ∨ t.type = .FLOAT ∨
        t.type = .DOUBLE ∨ t.type = .VOID then
      .ok (ASTNode.mk "TYPE_SPECIFIER" (.str t.value) [], i + 1)
    else if t.type = .STRUCT then
      p.parse_struct_declaration tokens i
    else
      .error ("Expected type specifier at line " ++ toString t.line)
  parse_struct_declaration := fun tokens i => do
    let (_, i) ← expect tokens i .STRUCT
    let t ← listGet tokens i
    if t.type = .IDENTIFIER then do
      let (tag, i) ← expect tokens i .IDENTIFIER
      let t2 ← listGet tokens i
      if t2.type = .LBRACE then do
        let (_, i) ← expect tokens i .LBRACE
        let (members, i) ← p.structMemberLoop tokens i []
        let (_, i) ← expect tokens i .RBRACE
        .ok (ASTNode.mk "STRUCT_DEFINITION" (.str tag.value) members, i)
      else
        .ok (ASTNode.mk "STRUCT_DECLARATION" (.str tag.value) [], i)
    else
      .error ("Expected struct tag at line " ++ toString t.line)
  structMemberLoop := fun tokens i acc =>
    match tokens.get? i with
    | Option.none => .ok (acc, i)
    | some t =>
      if t.type = .RBRACE then .ok (acc, i)
      else if t.type = .INT ∨ t.type = .CHAR ∨ t.type = .FLOAT ∨
          t.type = .DOUBLE then do
        let (m, j) ← p.parse_struct_member tokens i
        p.structMemberLoop tokens j (acc ++ [.node m])
      else
        p.structMemberLoop tokens (i + 1) acc
  parse_struct_member := fun tokens i => do
    let (type_spec, i) ← p.parse_type_specifier tokens i
    let (declarator, i) ← p.parse_declarator tokens i
    let (_, i) ← expect tokens i .SEMICOLON
    .ok (ASTNode.mk "STRUCT_MEMBER" (.node type_spec) [.node declarator], i)
  parse_declarator := fun tokens i => do
    let t ← listGet tokens i
    if t.type = .IDENTIFIER then do
      let (name, i) ← expect tokens i .IDENTIFIER
      let t2 ← listGet tokens i
      if t2.type = .LPAREN then do
        let (_, i) ← expect tokens i .LPAREN
        let t3 ← listGet tokens i
        let (params, i) ←
          if ¬ (t3.type = .RPAREN) then p.paramLoop tokens i []
          else .ok ([], i)
        let (_, i) ← expect tokens i .RPAREN
        .ok (ASTNode.mk "FUNCTION_DECLARATOR" (.str name.value) params, i)
      else
        .ok (ASTNode.mk "VARIABLE_DECLARATOR" (.str name.value) [], i)
    else
      .error ("Expected identifier at line " ++ toString t.line)
  paramLoop := fun tokens i acc => do
    let t ← listGet tokens i
    let (acc, i) ←
      if t.type = .INT ∨ t.type = .CHAR ∨ t.type = .FLOAT ∨
          t.type = .DOUBLE ∨ t.type = .VOID then do
        let (param_type, i) ← p.parse_type_specifier tokens i
        let t2 ← listGet tokens i
        if t2.type = .IDENTIFIER then do
          let (param_name, i) ← expect tokens i .IDENTIFIER
          .ok (acc ++ [Child.node (ASTNode.mk "PARAMETER" (.node param_type)
            [Child.token param_name])], i)
        else
          .ok (acc ++ [Child.node (ASTNode.mk "PARAMETER" (.node param_type)
            [])], i)
      else
        (.ok (acc, i + 1) : Except String (List Child × Nat))
    let t4 ← listGet tokens i
    if t4.type = .RPAREN then .ok (acc, i)
    else do
      let (_, i) ← expect tokens i .COMMA
      p.paramLoop tokens i acc
  parse_compound_statement := fun tokens i => do
    let (_, i) ← expect tokens i .LBRACE
    let (stmts, i) ← p.stmtLoop tokens i []
    let (_, i) ← expect tokens i .RBRACE
    .ok (ASTNode.mk "COMPOUND_STATEMENT" (.nodeList stmts) [], i)
  stmtLoop := fun tokens i acc =>
    match tokens.get? i with
    | Option.none => .ok (acc, i)
    | some t =>
      if t.type = .RBRACE then .ok (acc, i)
      else if t.type = .NEWLINE then p.stmtLoop tokens (i + 1) acc
      else do
        let (st, j) ← p.parse_statement tokens i
        match st with
        | some s => p.stmtLoop tokens j (acc ++ [s])
        | Option.none => p.stmtLoop tokens j acc
  parse_statement := fun tokens i =>
    match tokens.get? i with
    | Option.none => .ok (Option.none, i)
    | some t =>
      if t.type = .IF then do
        let (n, j) ← p.parse_if_statement tokens i
        .ok (some n, j)
      else if t.type = .FOR then do
        let (n, j) ← p.parse_for_statement tokens i
        .ok (some n, j)
      else if t.type = .WHILE then do
        let (n, j) ← p.parse_while_statement tokens i
        .ok (some n, j)
      else if t.type = .DO then do
        let (n, j) ← p.parse_do_while_statement tokens i
        .ok (some n, j)
      else if t.type = .RETURN then do
        let (n, j) ← p.parse_return_statement tokens i
        .ok (some n, j)
      else if t.type = .BREAK then do
        let (n, j) ← p.parse_break_statement tokens i
        .ok (some n, j)
      else if t.type = .CONTINUE then do
        let (n, j) ← p.parse_continue_statement tokens i
        .ok (some n, j)
      else if t.type = .LBRACE then do
        let (n, j) ← p.parse_compound_statement tokens i
        .ok (some n, j)
      else if t.type = .INT ∨ t.type = .CHAR ∨ t.type = .FLOAT ∨
          t.type = .DOUBLE then do
        let (n, j) ← p.parse_variable_declaration tokens i
        .ok (some n, j)
      else if t.type = .IDENTIFIER then do
        let (n, j) ← p.parse_expression_statement tokens i
        .ok (some n, j)
      else
        .ok (Option.none, i + 1)
  parse_if_statement := fun tokens i => do
    let (_, i) ← expect tokens i .IF
    let (_, i) ← expect tokens i .LPAREN
    let (condition, i) ← p.parse_expression tokens i
    let (_, i) ← expect tokens i .RPAREN
    let (then_statement, i) ← p.parse_statement tokens i
    let (else_statement, i) ←
      match tokens.get? i with
      | some t =>
        if t.type = .ELSE then do
          let (_, j) ← expect tokens i .ELSE
          p.parse_statement tokens j
        else (.ok (Option.none, i) : Except String (Option ASTNode × Nat))
      | Option.none => .ok (Option.none, i)
    .ok (ASTNode.mk "IF_STATEMENT" (.str "if")
      [.node condition, optChild then_statement, optChild else_statement], i)
  parse_for_statement := fun tokens i => do
    let (_, i) ← expect tokens i .FOR
    let (_, i) ← expect tokens i .LPAREN
    let t1 ← listGet tokens i
    let (init, i) ←
      if ¬ (t1.type = .SEMICOLON) then do
        let (e, j) ← p.parse_expression tokens i
        .ok (some e, j)
      else (.ok (Option.none, i) : Except String (Option ASTNode × Nat))
    let (_, i) ← expect tokens i .SEMICOLON
    let t2 ← listGet tokens i
    let (condition, i) ←
      if ¬ (t2.type = .SEMICOLON) then do
        let (e, j) ← p.parse_expression tokens i
        .ok (some e, j)
      else (.ok (Option.none, i) : Except String (Option ASTNode × Nat))
    let (_, i) ← expect tokens i .SEMICOLON
    let t3 ← listGet tokens i
    let (update, i) ←
      if ¬ (t3.type = .RPAREN) then do
        let (e, j) ← p.parse_expression tokens i
        .ok (some e, j)
      else (.ok (Option.none, i) : Except String (Option ASTNode × Nat))
    let (_, i) ← expect tokens i .RPAREN
    let (body, i) ← p.parse_statement tokens i
    .ok (ASTNode.mk "FOR_STATEMENT" (.str "for")
      [optChild init, optChild condition, optChild update, optChild body], i)
  parse_while_statement := fun tokens i => do
    let (_, i) ← expect tokens i .WHILE
    let (_, i) ← expect tokens i .LPAREN
    let (condition, i) ← p.parse_expression tokens i
    let (_, i) ← expect tokens i .RPAREN
    let (body, i) ← p.parse_statement tokens i
    .ok (ASTNode.mk "WHILE_STATEMENT" (.str "while")
      [.node condition, optChild body], i)
  parse_do_while_statement := fun tokens i => do
    let (_, i) ← expect tokens i .DO
    let (body, i) ← p.parse_statement tokens i
    let (_, i) ← expect tokens i .WHILE
    let (_, i) ← expect tokens i .LPAREN
    let (condition, i) ← p.parse_expression tokens i
    let (_, i) ← expect tokens i .RPAREN
    let (_, i) ← expect tokens i .SEMICOLON
    .ok (ASTNode.mk "DO_WHILE_STATEMENT" (.str "do-while")
      [optChild body, .node condition], i)
  parse_return_statement := fun tokens i => do
    let (_, i) ← expect tokens i .RETURN
    let t ← listGet tokens i
    if ¬ (t.type = .SEMICOLON) then do
      let (v, i) ← p.parse_expression tokens i
      let (_, i) ← expect tokens i .SEMICOLON
      .ok (ASTNode.mk "RETURN_STATEMENT" (.str "return") [.node v], i)
    else do
      let (_, i) ← expect tokens i .SEMICOLON
      .ok (ASTNode.mk "RETURN_STATEMENT" (.str "return") [], i)
  parse_break_statement := fun tokens i => do
    let (_, i) ← expect tokens i .BREAK
    let (_, i) ← expect tokens i .SEMICOLON
    .ok (ASTNode.mk "BREAK_STATEMENT" (.str "break") [], i)
  parse_continue_statement := fun tokens i => do
    let (_, i) ← expect tokens i .CONTINUE
    let (_, i) ← expect tokens i .SEMICOLON
    .ok (ASTNode.mk "CONTINUE_STATEMENT" (.str "continue") [], i)
  parse_variable_declaration := fun tokens i => do
    let (type_spec, i) ← p.parse_type_specifier tokens i
    let (declarator, i) ← p.parse_declarator tokens i
    let (_, i) ← expect tokens i .SEMICOLON
    .ok (ASTNode.mk "VARIABLE_DECLARATION" (.node type_spec)
      [.node declarator], i)
  parse_expression_statement := fun tokens i => do
    let (expr, i) ← p.parse_expression tokens i
    let (_, i) ← expect tokens i .SEMICOLON
    .ok (ASTNode.mk "EXPRESSION_STATEMENT" (.node expr) [], i)
  parse_expression := fun tokens i => p.parse_assignment_expression tokens i
  parse_assignment_expression := fun tokens i => do
    let (left, i) ← p.parse_logical_or_expression tokens i
    match tokens.get? i with
    | some t =>
      if t.type = .ASSIGN ∨ t.type = .PLUS_ASSIGN ∨ t.type = .MINUS_ASSIGN ∨
          t.type = .MULTIPLY_ASSIGN ∨ t.type = .DIVIDE_ASSIGN ∨
          t.type = .MODULO_ASSIGN ∨ t.type = .AND_ASSIGN ∨
          t.type = .OR_ASSIGN ∨ t.type = .XOR_ASSIGN ∨
          t.type = .LEFT_SHIFT_ASSIGN ∨ t.type = .RIGHT_SHIFT_ASSIGN then do
        let (right, j) ← p.parse_assignment_expression tokens (i + 1)
        .ok (ASTNode.mk "ASSIGNMENT_EXPRESSION" (.str t.value)
          [.node left, .node right], j)
      else .ok (left, i)
    | Option.none => .ok (left, i)
  parse_logical_or_expression := fun tokens i => do
    let (left, i) ← p.parse_logical_and_expression tokens i
    p.orLoop tokens i left
  orLoop := fun tokens i left =>
    match tokens.get? i with
    | some t =>
      if t.type = .OR then do
        let (right, j) ← p.parse_logical_and_expression tokens (i + 1)
        p.orLoop tokens j
          (ASTNode.mk "LOGICAL_OR_EXPRESSION" (.str t.value)
            [.node left, .node right])
      else .ok (left, i)
    | Option.none => .ok (left, i)
  parse_logical_and_expression := fun tokens i => do
    let (left, i) ← p.parse_equality_expression tokens i
    p.andLoop tokens i left
  andLoop := fun tokens i left =>
    match tokens.get? i with
    | some t =>
      if t.type = .AND then do
        let (right, j) ← p.parse_equality_expression tokens (i + 1)
        p.andLoop tokens j
          (ASTNode.mk "LOGICAL_AND_EXPRESSION" (.str t.value)
            [.node left, .node right])
      else .ok (left, i)
    | Option.none => .ok (left, i)
  parse_equality_expression := fun tokens i => do
    let (left, i) ← p.parse_relational_expression tokens i
    p.eqLoop tokens i left
  eqLoop := fun tokens i left =>
    match tokens.get? i with
    | some t =>
      if t.type = .EQUAL ∨ t.type = .NOT_EQUAL then do
        let (right, j) ← p.parse_relational_expression tokens (i + 1)
        p.eqLoop tokens j
          (ASTNode.mk "EQUALITY_EXPRESSION" (.str t.value)
            [.node left, .node right])
      else .ok (left, i)
    | Option.none => .ok (left, i)
  parse_relational_expression := fun tokens i => do
    let (left, i) ← p.parse_shift_expression tokens i
    p.relLoop tokens i left
  relLoop := fun tokens i left =>
    match tokens.get? i with
    | some t =>
      if t.type = .LESS_THAN ∨ t.type = .LESS_EQUAL ∨
          t.type = .GREATER_THAN ∨ t.type = .GREATER_EQUAL then do
        let (right, j) ← p.parse_shift_expression tokens (i + 1)
        p.relLoop tokens j
          (ASTNode.mk "RELATIONAL_EXPRESSION" (.str t.value)
            [.node left, .node right])
      else .ok (left, i)
    | Option.none => .ok (left, i)
  parse_shift_expression := fun tokens i => do
    let (left, i) ← p.parse_additive_expression tokens i
    p.shiftLoop tokens i left
  shiftLoop := fun tokens i left =>
    match tokens.get? i with
    | some t =>
      if t.type = .LEFT_SHIFT ∨ t.type = .RIGHT_SHIFT then do
        let (right, j) ← p.parse_additive_expression tokens (i + 1)
        p.shiftLoop tokens j
          (ASTNode.mk "SHIFT_EXPRESSION" (.str t.value)
            [.node left, .node right])
      else .ok (left, i)
    | Option.none => .ok (left, i)
  parse_additive_expression := fun tokens i => do
    let (left, i) ← p.parse_multiplicative_expression tokens i
    p.addLoop tokens i left
  addLoop := fun tokens i left =>
    match tokens.get? i with
    | some t =>
      if t.type = .PLUS ∨ t.type = .MINUS then do
        let (right, j) ← p.parse_multiplicative_expression tokens (i + 1)
        p.addLoop tokens j
          (ASTNode.mk "ADDITIVE_EXPRESSION" (.str t.value)
            [.node left, .node right])
      else .ok (left, i)
    | Option.none => .ok (left, i)
  parse_multiplicative_expression := fun tokens i => do
    let (left, i) ← p.parse_unary_expression tokens i
    p.mulLoop tokens i left
  mulLoop := fun tokens i left =>
    match tokens.get? i with
    | some t =>
      if t.type = .MULTIPLY ∨ t.type = .DIVIDE ∨ t.type = .MODULO then do
        let (right, j) ← p.parse_unary_expression tokens (i + 1)
        p.mulLoop tokens j
          (ASTNode.mk "MULTIPLICATIVE_EXPRESSION" (.str t.value)
            [.node left, .node right])
      else .ok (left, i)
    | Option.none => .ok (left, i)
  parse_unary_expression := fun tokens i => do
    let t ← listGet tokens i
    if t.type = .PLUS ∨ t.type = .MINUS ∨ t.type = .NOT ∨
        t.type = .BITWISE_NOT then do
      let (operand, j) ← p.parse_unary_expression tokens (i + 1)
      .ok (ASTNode.mk "UNARY_EXPRESSION" (.str t.value) [.node operand], j)
    else if t.type = .INCREMENT ∨ t.type = .DECREMENT then do
      let (operand, j) ← p.parse_postfix_expression tokens (i + 1)
      .ok (ASTNode.mk "UNARY_EXPRESSION" (.str t.value) [.node operand], j)
    else
      p.parse_postfix_expression tokens i
  parse_postfix_expression := fun tokens i => do
    let (left, i) ← p.parse_primary_expression tokens i
    p.postfixLoop tokens i left
  postfixLoop := fun tokens i left =>
    match tokens.get? i with
    | Option.none => .ok (left, i)
    | some t =>
      if t.type = .LBRACKET then do
        let (_, i) ← expect tokens i .LBRACKET
        let (index, i) ← p.parse_expression tokens i
        let (_, i) ← expect tokens i .RBRACKET
        p.postfixLoop tokens i
          (ASTNode.mk "ARRAY_ACCESS" (.str "[]") [.node left, .node index])
      else if t.type = .LPAREN then do
        let (_, i) ← expect tokens i .LPAREN
        let t2 ← listGet tokens i
        let (args, i) ←
          if ¬ (t2.type = .RPAREN) then p.argLoop tokens i []
          else (.ok ([], i) : Except String (List Child × Nat))
        let (_, i) ← expect tokens i .RPAREN
        p.postfixLoop tokens i
          (ASTNode.mk "FUNCTION_CALL" (.str "()") (Child.node left :: args))
      else if t.type = .INCREMENT ∨ t.type = .DECREMENT then
        p.postfixLoop tokens (i + 1)
          (ASTNode.mk "POSTFIX_EXPRESSION" (.str t.value) [.node left])
      else if t.type = .DOT then do
        let (_, i) ← expect tokens i .DOT
        let (member, i) ← expect tokens i .IDENTIFIER
        p.postfixLoop tokens i
          (ASTNode.mk "MEMBER_ACCESS" (.str ".") [.node left, .token member])
      else if t.type = .ARROW then do
        let (_, i) ← expect tokens i .ARROW
        let (member, i) ← expect tokens i .IDENTIFIER
        p.postfixLoop tokens i
          (ASTNode.mk "POINTER_MEMBER_ACCESS" (.str "->")
            [.node left, .token member])
      else .ok (left, i)
  argLoop := fun tokens i acc => do
    let (e, i) ← p.parse_expression tokens i
    let acc := acc ++ [Child.node e]
    let t ← listGet tokens i
    if t.type = .RPAREN then .ok (acc, i)
    else do
      let (_, i) ← expect tokens i .COMMA
      p.argLoop tokens i acc
  parse_primary_expression := fun tokens i => do
    let t ← listGet tokens i
    if t.type = .NUMBER then
      if pyFloatOk t.value then .ok (ASTNode.mk "NUMBER" (.num t.value) [], i + 1)
      else .error ("could not convert string to float: " ++ t.value)
    else if t.type = .STRING then
      .ok (ASTNode.mk "STRING" (.str t.value) [], i + 1)
    else if t.type = .CHARACTER then
      .ok (ASTNode.mk "CHARACTER" (.str t.value) [], i + 1)
    else if t.type = .IDENTIFIER then
      .ok (ASTNode.mk "IDENTIFIER" (.str t.value) [], i + 1)
    else if t.type = .LPAREN then do
      let (_, i) ← expect tokens i .LPAREN
      let (expr, i) ← p.parse_expression tokens i
      let (_, i) ← expect tokens i .RPAREN
      .ok (expr, i)
    else
      .error ("Unexpected token " ++ typeName t.type ++ " at line " ++
        toString t.line ++ ", column " ++ toString t.column)

/-- The parser functions at each fuel level. -/
def parserFns : Nat → ParserFns
  | 0 => parserStop
  | fuel + 1 => parserStep (parserFns fuel)

/-- `Parser.parse_program` at a given fuel. -/
def parse_program (fuel : Nat) (tokens : List Token) (i : Nat) :
    Except String (ASTNode × Nat) :=
  (parserFns fuel).parse_program tokens i

/-- Fuel bound for one parse: generous headroom over the deepest call
chain per token. -/
def parserFuel (tokens : List Token) : Nat := (tokens.length + 1) * 1000

/-- `Parser.parse`: the only entry point; every internal failure is
caught, recorded in the error list, and turned into an `ERROR` node
whose value is the diagnostic text. -/
def parse (tokens : List Token) : ASTNode × List String :=
  match parse_program (parserFuel tokens) tokens 0 with
  | .ok (n, _) => (n, [])
  | .error e => (ASTNode.mk "ERROR" (.str e) [], ["Parser Error: " ++ e])

/-- A function parameter as recorded by `CCompiler.extract_parameters`:
the `type` slot holds the parameter node's value (a type-specifier
node), the `name` slot the first child's value or `None`. -/
structure ParamInfo where
  type : NodeValue
  name : NodeValue

/-- A function descriptor as recorded by `CCompiler.analyze_ast`. -/
structure FuncInfo where
  name : NodeValue
  type : NodeValue
  parameters : List ParamInfo
  has_body : Bool

/-- A variable descriptor as recorded by `CCompiler.analyze_ast`. -/
structure VarInfo where
  name : NodeValue
  type : NodeValue

/-- A macro descriptor as recorded by `CCompiler.analyze_ast`. -/
structure DefineInfo where
  name : NodeValue
  value : NodeValue

/-- A struct descriptor as recorded by `CCompiler.analyze_ast`. -/
structure StructInfo where
  name : NodeValue
  members : Nat

/-- The analysis accumulator built by `CCompiler.analyze_code`: the
`vars` field models the dict entry named "variables" (a reserved word
in Lean 4); the `parse_error` slot models the key only added when an
exception was caught (absent = `Option.none`). -/
structure Analysis where
  functions : List FuncInfo
  vars : List VarInfo
  includes : List NodeValue
  defines : List DefineInfo
  structures : List StructInfo
  comments : List NodeValue
  lines : Nat
  complexity : Int
  parse_error : Option String

/-- Message of Python's `AttributeError` as seen through `str(e)`
(quotes around the names omitted). -/
def attributeError (ty attr : String) : String :=
  ty ++ " object has no attribute " ++ attr

/-- Reading `.node_type` off a children-list entry: raises
`AttributeError` unless the entry is an actual node. -/
def childNodeType : Child → Except String String
  | .node n => .ok n.node_type
  | .none => .error (attributeError "NoneType" "node_type")
  | .token _ => .error (attributeError "Token" "node_type")

/-- Reading `.value` off a children-list entry: tokens expose their
text, `None` raises `AttributeError`. -/
def childValue : Child → Except String NodeValue
  | .node n => .ok n.value
  | .token t => .ok (.str t.value)
  | .none => .error (attributeError "NoneType" "value")

/-- The parameter loop of `CCompiler.extract_parameters`. -/
def paramsOf : List Child → List ParamInfo → Except String (List ParamInfo)
  | [], acc => .ok acc
  | p :: rest, acc =>
    match p with
    | .node pn =>
      if pn.node_type = "PARAMETER" then
        match pn.children with
        | [] => paramsOf rest (acc ++ [⟨pn.value, NodeValue.none⟩])
        | c0 :: _ =>
          match childValue c0 with
          | .error e => .error e
          | .ok v => paramsOf rest (acc ++ [⟨pn.value, v⟩])
      else paramsOf rest acc
    | .none => .error (attributeError "NoneType" "node_type")
    | .token _ => .error (attributeError "Token" "node_type")

/-- `CCompiler.extract_parameters`: reads the first child (the
declarator) and collects its `PARAMETER` children; accessing
`node_type` of a `None` or `Token` entry raises. -/
def extract_parameters (node : ASTNode) : Except String (List ParamInfo) :=
  match node.children with
  | [] => .ok []
  | declarator :: _ =>
    match declarator with
    | .node d =>
      if d.node_type = "FUNCTION_DECLARATOR" then
        if d.children.isEmpty then .ok [] else paramsOf d.children []
      else .ok []
    | .none => .error (attributeError "NoneType" "node_type")
    | .token _ => .error (attributeError "Token" "node_type")

/-- The single analysis function at one fuel level. -/
structure AnalyzerFn where
  run : ASTNode → Analysis → Analysis × Option String

/-- One entry of the `for child in node.children` loop: recursing into
a `None` or `Token` entry raises `AttributeError` at the first
attribute access inside `analyze_ast`. -/
def analyzeChildStep (a : AnalyzerFn) (c : Child) (acc : Analysis) :
    Analysis × Option String :=
  match c with
  | .node n => a.run n acc
  | .none => (acc, some (attributeError "NoneType" "node_type"))
  | .token _ => (acc, some (attributeError "Token" "node_type"))

/-- The `for child in node.children` loop of `CCompiler.analyze_ast`:
the first raised error aborts the loop, keeping the mutations made so
far. -/
def goChildren (a : AnalyzerFn) : List Child → Analysis →
    Analysis × Option String
  | [], acc => (acc, Option.none)
  | c :: cs, acc =>
    match analyzeChildStep a c acc with
    | (acc2, Option.none) => goChildren a cs acc2
    | r => r

/-- Fuel exhaustion for the analyzer (`RecursionError`). -/
def analyzerStop : AnalyzerFn :=
  ⟨fun _ acc => (acc, some recErr)⟩

/-- One fuel level of `CCompiler.analyze_ast`: the dispatch on
`node.node_type` mutates the accumulator (raised exceptions abort
before the mutation of the offending statement), then the children are
traversed regardless of the node's kind. -/
def analyzerStep (a : AnalyzerFn) : AnalyzerFn :=
  ⟨fun node acc =>
    let step : Analysis × Option String :=
      if node.node_type = "FUNCTION_DEFINITION" then
        match node.children with
        | [] =>
          match extract_parameters node with
          | .error e => (acc, some e)
          | .ok ps =>
            ({ acc with
              functions := acc.functions ++
                [⟨.str "unknown", node.value, ps, true⟩],
              complexity := acc.complexity + 1 }, Option.none)
        | c0 :: _ =>
          match c0 with
          | .node d =>
            let func_name :=
              if d.node_type = "FUNCTION_DECLARATOR" then d.value
              else .str "unknown"
            match extract_parameters node with
            | .error e => (acc, some e)
            | .ok ps =>
              ({ acc with
                functions := acc.functions ++
                  [⟨func_name, node.value, ps, true⟩],
                complexity := acc.complexity + 1 }, Option.none)
          | .none => (acc, some (attributeError "NoneType" "node_type"))
          | .token _ => (acc, some (attributeError "Token" "node_type"))
      else if node.node_type = "FUNCTION_DECLARATION" then
        match node.children with
        | [] =>
          match extract_parameters node with
          | .error e => (acc, some e)
          | .ok ps =>
            ({ acc with
              functions := acc.functions ++
                [⟨.str "unknown", node.value, ps, false⟩] }, Option.none)
        | c0 :: _ =>
          match c0 with
          | .node d =>
            let func_name :=
              if d.node_type = "FUNCTION_DECLARATOR" then d.value
              else .str "unknown"
            match extract_parameters node with
            | .error e => (acc, some e)
            | .ok ps =>
              ({ acc with
                functions := acc.functions ++
                  [⟨func_name, node.value, ps, false⟩] }, Option.none)
          | .none => (acc, some (attributeError "NoneType" "node_type"))
          | .token _ => (acc, some (attributeError "Token" "node_type"))
      else if node.node_type = "VARIABLE_DECLARATION" then
        match node.children with
        | [] =>
          ({ acc with
            vars := acc.vars ++
              [⟨.str "unknown", node.value⟩] }, Option.none)
        | c0 :: _ =>
          match c0 with
          | .node d =>
            let var_name :=
              if d.node_type = "VARIABLE_DECLARATOR" then d.value
              else .str "unknown"
            ({ acc with
              vars := acc.vars ++ [⟨var_name, node.value⟩] },
              Option.none)
          | .none => (acc, some (attributeError "NoneType" "node_type"))
          | .token _ => (acc, some (attributeError "Token" "node_type"))
      else if node.node_type = "INCLUDE" then
        ({ acc with includes := acc.includes ++ [node.value] }, Option.none)
      else if node.node_type = "DEFINE" then
        match node.children with
        | [] =>
          ({ acc with
            defines := acc.defines ++ [⟨node.value, NodeValue.none⟩] },
            Option.none)
        | c0 :: _ =>
          match childValue c0 with
          | .error e => (acc, some e)
          | .ok v =>
            ({ acc with defines := acc.defines ++ [⟨node.value, v⟩] },
              Option.none)
      else if node.node_type = "STRUCT_DEFINITION" then
        ({ acc with
          structures := acc.structures ++
            [⟨node.value, node.children.length⟩] }, Option.none)
      else if node.node_type = "COMMENT" then
        ({ acc with comments := acc.comments ++ [node.value] }, Option.none)
      else if node.node_type = "IF_STATEMENT" ∨
          node.node_type = "FOR_STATEMENT" ∨
          node.node_type = "WHILE_STATEMENT" ∨
          node.node_type = "DO_WHILE_STATEMENT" then
        ({ acc with complexity := acc.complexity + 1 }, Option.none)
      else (acc, Option.none)
    match step with
    | (acc2, some e) => (acc2, some e)
    | (acc2, Option.none) => goChildren a node.children acc2⟩

/-- The analyzer at each fuel level. -/
def analyzerFns : Nat → AnalyzerFn
  | 0 => analyzerStop
  | fuel + 1 => analyzerStep (analyzerFns fuel)

/-- `CCompiler.analyze_ast` at a given fuel (the fuel bounds the
recursion depth, i.e. the tree depth reached). -/
def analyze_ast (fuel : Nat) (node : ASTNode) (acc : Analysis) :
    Analysis × Option String :=
  (analyzerFns fuel).run node acc

/-- Python `len(source_code.split(backslash-n))`. -/
def countLines (s : String) : Nat :=
  (s.data.filter (fun c => c = '\n')).length + 1

/-- The empty analysis accumulator created at the start of
`CCompiler.analyze_code`. -/
def baseAnalysis (source_code : String) : Analysis :=
  { functions := [], vars := [], includes := [], defines := []
  , structures := [], comments := [], lines := countLines source_code
  , complexity := 0, parse_error := Option.none }

/-- Fuel bound for one analysis (depth of the traversed tree). -/
def analyzerFuel (tokens : List Token) : Nat := (tokens.length + 1) * 1000

/-- `CCompiler.analyze_code`: tokenize, parse (which never raises),
analyze; any exception raised inside the `try` block is recorded under
`parse_error`, keeping the mutations made before it. -/
def analyze_code (source_code : String) : Analysis :=
  let base := baseAnalysis source_code
  match tokenize source_code with
  | .error e => { base with parse_error := some e }
  | .ok tokens =>
    let ast := (parse tokens).1
    match analyze_ast (analyzerFuel tokens) ast base with
    | (a, some e) => { a with parse_error := some e }
    | (a, Option.none) => a

/-- Token list of a source, for stating properties of the parse stage
(empty when tokenization fails). -/
def tokensOf (src : String) : List Token :=
  match tokenize src with
  | .ok ts => ts
  | .error _ => []

/-- Concatenation of the lexeme texts of a token list. -/
def concatValues (ts : List Token) : List Char :=
  (ts.map (fun t => t.value.data)).flatten

/-- The non-whitespace characters of a character list, in order. -/
def nonWs (l : List Char) : List Char :=
  l.filter (fun c => ¬ isPySpace c = true)

/-- The end-to-end example source of the specification. -/
def srcEndToEnd : String :=
  "#include <stdio.h>\nint add(int a, int b) \x7b\n    if (a > b) \x7b return a; \x7d\n    return b;\n\x7d"

/-- A minimal function definition with one named parameter. -/
def srcParam : String := "int f(int a) \x7b \x7d"

/-- A function containing one if and one while statement. -/
def srcIfWhile : String := "int f() \x7b if (a) \x7b \x7d while (b) \x7b \x7d \x7d"

/-- A struct with one supported member and one unsupported-typed
member, declared as the type of a variable. -/
def srcStruct : String := "struct S \x7b int x; long z; \x7d v;"

/-- C1: the end-to-end scenario of the specification does not hold on
the code. Lexing splits the header name into Identifier(stdio), Dot,
Identifier(h), so `parse_include` fails at the Dot, the whole parse
degenerates to an `ERROR` node, and the analysis reports no include,
no function, and complexity 0 (the claim expects one include
`<stdio.h>`, one function `add` and complexity 2). -/
theorem c1_end_to_end_fails :
    (parse (tokensOf srcEndToEnd)).2 =
      ["Parser Error: Expected TokenType.GREATER_THAN, but got TokenType.DOT at line 1, column 16"] ∧
    (analyze_code srcEndToEnd).includes = [] ∧
    (analyze_code srcEndToEnd).functions = [] ∧
    (analyze_code srcEndToEnd).complexity = 0 := by
  refine ⟨by rfl, by rfl, by rfl, by rfl⟩

/-- C2: the analysis traversal is not total on parser-produced trees:
on `int f(int a) { }` the parse succeeds (no diagnostics), but the
traversal reaches the raw parameter-name `Token` stored as a child of
the `PARAMETER` node and raises `AttributeError`, which
`analyze_code` records under `parse_error`. -/
theorem c2_analyzer_raises :
    (parse (tokensOf srcParam)).2 = [] ∧
    (analyze_ast (analyzerFuel (tokensOf srcParam))
        (parse (tokensOf srcParam)).1 (baseAnalysis srcParam)).2 =
      some (attributeError "Token" "node_type") ∧
    (analyze_code srcParam).parse_error =
      some (attributeError "Token" "node_type") := by
  refine ⟨by rfl, by rfl, by rfl⟩

/-- C4: comment tokens never become AST nodes (the top-level loop of
the parser skips them), so the analysis record's comment list stays
empty even though tokenization preserved the comment text. -/
theorem c4_comments_never_collected :
    tokenize "// hi" = .ok [⟨.COMMENT, "// hi", 1, 1⟩, ⟨.EOF, "", 1, 6⟩] ∧
    (analyze_code "// hi").comments = [] ∧
    (analyze_code "// hi").parse_error = Option.none := by
  refine ⟨by rfl, by rfl, by rfl⟩

/-- C5: the top-level `parse` never propagates an exception: it either
returns the program node with an empty diagnostics list, or catches
the internal failure and returns a childless `ERROR` node carrying the
diagnostic, with the prefixed diagnostic appended to the error list. -/
theorem c5_parse_never_raises (ts : List Token) :
    (∃ n j, parse_program (parserFuel ts) ts 0 = .ok (n, j) ∧
      parse ts = (n, [])) ∨
    (∃ e, parse_program (parserFuel ts) ts 0 = .error e ∧
      parse ts = (ASTNode.mk "ERROR" (.str e) [], ["Parser Error: " ++ e])) := by
  cases h : parse_program (parserFuel ts) ts 0 with
  | error e => exact Or.inr ⟨e, rfl, by simp [parse, h]⟩
  | ok nj => exact Or.inl ⟨nj.1, nj.2, by simp [h], by simp [parse, h]⟩

/-- C6: the complexity counter does not see statements inside function
bodies, because `parse_compound_statement` stores its statement list
in the node's value slot and the traversal only recurses into
children: a function with one if and one while yields complexity 1,
not 3, with a clean parse. -/
theorem c6_complexity_misses_body :
    (parse (tokensOf srcIfWhile)).2 = [] ∧
    (analyze_code srcIfWhile).functions.length = 1 ∧
    (analyze_code srcIfWhile).parse_error = Option.none ∧
    (analyze_code srcIfWhile).complexity = 1 := by
  refine ⟨by rfl, by rfl, by rfl, by rfl⟩

/-- C8: struct definitions are stored in the value slot of the
declaration that uses them, never in a children list, so the analysis
reports no struct at all: on `struct S { int x; long z; } v;` the
parse is clean and the struct (whose AST member list has exactly the
one `int` member) only surfaces as the recorded variable's type. -/
theorem c8_structs_never_reported :
    (parse (tokensOf srcStruct)).2 = [] ∧
    (analyze_code srcStruct).parse_error = Option.none ∧
    (analyze_code srcStruct).vars.length = 1 ∧
    (analyze_code srcStruct).structures = [] := by
  refine ⟨by rfl, by rfl, by rfl, by rfl⟩

/-- C9: tokenization is deterministic: two successful runs on the same
source return lists of the same length that agree on every token
(kind, text, line and column). -/
theorem c9_tokenize_deterministic (source : String) (ts1 ts2 : List Token)
    (h1 : tokenize source = .ok ts1) (h2 : tokenize source = .ok ts2) :
    ts1.length = ts2.length ∧ ts1 = ts2 := by
  rw [h1] at h2
  cases h2
  exact ⟨rfl, rfl⟩

/-- Witness for C9 at a concrete source. -/
theorem c9_tokenize_deterministic_witness :
    ([⟨.INT, "int", 1, 1⟩, ⟨.IDENTIFIER, "x", 1, 5⟩, ⟨.SEMICOLON, ";", 1, 6⟩,
      ⟨.EOF, "", 1, 7⟩] : List Token).length =
      ([⟨.INT, "int", 1, 1⟩, ⟨.IDENTIFIER, "x", 1, 5⟩, ⟨.SEMICOLON, ";", 1, 6⟩,
        ⟨.EOF, "", 1, 7⟩] : List Token).length ∧
    ([⟨.INT, "int", 1, 1⟩, ⟨.IDENTIFIER, "x", 1, 5⟩, ⟨.SEMICOLON, ";", 1, 6⟩,
      ⟨.EOF, "", 1, 7⟩] : List Token) =
      [⟨.INT, "int", 1, 1⟩, ⟨.IDENTIFIER, "x", 1, 5⟩, ⟨.SEMICOLON, ";", 1, 6⟩,
        ⟨.EOF, "", 1, 7⟩] :=
  c9_tokenize_deterministic "int x;" _ _ (by rfl) (by rfl)

/-- C10: one parse appends at most one diagnostic, and when a
diagnostic is present the returned root is a childless `ERROR` node
(every top-level construct parsed before the failure is discarded). -/
theorem c10_single_error_node (ts : List Token) :
    ((parse ts).2).length ≤ 1 ∧
    (¬ ((parse ts).2 = []) →
      (parse ts).1.children = [] ∧ (parse ts).1.node_type = "ERROR") := by
  cases h : parse_program (parserFuel ts) ts 0 with
  | error e =>
    refine ⟨?_, fun _ => ?_⟩ <;> simp [parse, h, ASTNode.children, ASTNode.node_type]
  | ok nj =>
    refine ⟨?_, fun hne => ?_⟩ <;> simp [parse, h] at *

/-- Witness for C10 on a token list whose parse fails (a lone `int`
keyword runs off the end of the input). -/
theorem c10_single_error_node_witness :
    ((parse [⟨.INT, "int", 1, 1⟩]).2).length ≤ 1 ∧
    ((parse [⟨.INT, "int", 1, 1⟩]).1.children = [] ∧
      (parse [⟨.INT, "int", 1, 1⟩]).1.node_type = "ERROR") :=
  ⟨(c10_single_error_node [⟨.INT, "int", 1, 1⟩]).1,
    (c10_single_error_node [⟨.INT, "int", 1, 1⟩]).2 (by decide)⟩


/-- Char-level fact: an alphabetic character is not Python whitespace. -/
theorem not_space_of_isAlpha (c : Char) (h : c.isAlpha = true) : isPySpace c = false := by
  unfold isPySpace
  simp only [Bool.or_eq_false_iff, decide_eq_false_iff_not]
  refine ⟨⟨⟨⟨⟨?_, ?_⟩, ?_⟩, ?_⟩, ?_⟩, ?_⟩ <;> (intro e; subst e; exact absurd h (by decide))

/-- Char-level fact: an alphabetic character is not a digit. -/
theorem not_digit_of_isAlpha (c : Char) (h : c.isAlpha = true) : c.isDigit = false := by
  revert h
  simp only [Char.isAlpha, Char.isUpper, Char.isLower, Char.isDigit]
  simp only [Bool.or_eq_true, Bool.and_eq_true, decide_eq_true_eq, Char.le_def]
  intro h
  simp only [Bool.and_eq_false_iff, decide_eq_false_iff_not, UInt32.le_def, BitVec.le_def,
    show ((48 : UInt32).toBitVec.toNat) = 48 from rfl,
    show ((57 : UInt32).toBitVec.toNat) = 57 from rfl,
    show ((65 : UInt32).toBitVec.toNat) = 65 from rfl,
    show ((90 : UInt32).toBitVec.toNat) = 90 from rfl,
    show ((97 : UInt32).toBitVec.toNat) = 97 from rfl,
    show ((122 : UInt32).toBitVec.toNat) = 122 from rfl] at *
  omega

/-- An alphabetic character differs from any non-alphabetic one. -/
theorem ne_of_isAlpha (c C : Char) (h : c.isAlpha = true) (hC : C.isAlpha = false) :
    ¬ (c = C) := by
  intro e; subst e; rw [h] at hC; cases hC

/-- Lexing a single alphabetic character that is not a slash: one
identifier-or-keyword token is emitted and the input is consumed. -/
theorem tokFuel_single_alpha (fuel : Nat) (c : Char) (line col : Nat)
    (ha : c.isAlpha = true) (hs : ¬ (c = '/')) :
    tokFuel (fuel + 1) [c] line col =
      (tokFuel fuel [] line (col + 1)).map
        ((match keywords (String.mk [c.toLower]) with
          | some k => Token.mk k (String.mk [c]) line col
          | Option.none => Token.mk .IDENTIFIER (String.mk [c]) line col) :: ·) := by
  have hsp := not_space_of_isAlpha c ha
  have hd := not_digit_of_isAlpha c ha
  have hnd : ¬ (c = dquote) := ne_of_isAlpha c dquote ha (by decide)
  have hnq : ¬ (c = squote) := ne_of_isAlpha c squote ha (by decide)
  conv_lhs => rw [tokFuel]
  simp only [hsp, Bool.false_eq_true, if_false, if_neg hs]
  rw [lexOther]
  simp only [if_neg hnd, if_neg hnq, hd, Bool.false_eq_true, if_false, ha, Bool.true_or,
    if_true]
  simp only [List.takeWhile, List.dropWhile, idChar, Char.isAlphanum, ha, Bool.true_or,
    List.map]
  cases keywords (String.mk [c.toLower]) <;> rfl

/-- With no slash in the input, the block-comment scan consumes
everything but the final character. -/
theorem scanBlock_noSlash : ∀ (t : List Char) (line col : Nat),
    ¬ ('/' ∈ t) → (scanBlock t line col).1 = t.dropLast := by
  intro t
  induction t with
  | nil => intro line col _; rfl
  | cons a rest ih =>
    intro line col hns
    cases rest with
    | nil => rfl
    | cons b r2 =>
      have hb : ¬ (b = '/') := fun h => hns (by simp [h])
      have hmatch : ¬ (a = '*' && b = '/') = true := by
        simp only [Bool.and_eq_true, decide_eq_true_eq]
        rintro ⟨-, h⟩; exact hb h
      have hrest : ¬ ('/' ∈ b :: r2) := fun h => hns (List.mem_cons_of_mem _ h)
      by_cases hn : a = '\n'
      · simp [scanBlock, hmatch, hn, ih (line + 1) 1 hrest]
      · simp [scanBlock, hmatch, hn, ih line (col + 1) hrest]

/-- The empty-input step of the scanning loop at any fuel. -/
theorem tokFuel_nil (fuel line col : Nat) :
    tokFuel fuel [] line col = .ok [⟨.EOF, "", line, col⟩] := by
  cases fuel <;> rfl

theorem lexOp1_text (r : List Char) (line col : Nat) (tk : Token) (r3 : List Char)
    (l3 c3 : Nat) (h : lexOther.lexOp1 r line col = .ok (tk, r3, l3, c3)) :
    tk.value.data ++ r3 = r := by
  cases r with
  | nil => exact absurd h (by simp [lexOther.lexOp1])
  | cons c rest =>
    rw [lexOther.lexOp1] at h
    cases ho : operators (String.mk [c]) with
    | some k => rw [ho] at h; cases h; rfl
    | none =>
      rw [ho] at h
      cases hd : delimiters c with
      | some k => rw [hd] at h; cases h; rfl
      | none => rw [hd] at h; cases h

theorem lexOp_text (r : List Char) (line col : Nat) (tk : Token) (r3 : List Char)
    (l3 c3 : Nat) (h : lexOther.lexOp r line col = .ok (tk, r3, l3, c3)) :
    tk.value.data ++ r3 = r := by
  rw [lexOther.lexOp] at h
  by_cases hlen : r.length ≥ 2
  · rw [if_pos hlen] at h
    cases ho : operators (String.mk (r.take 2)) with
    | some k =>
      rw [ho] at h; cases h
      simp [List.take_append_drop]
    | none => rw [ho] at h; exact lexOp1_text r line col tk r3 l3 c3 h
  · rw [if_neg hlen] at h
    exact lexOp1_text r line col tk r3 l3 c3 h


theorem lexOther_text (c : Char) (rest : List Char) (line col : Nat)
    (tk : Token) (r3 : List Char) (l3 c3 : Nat)
    (hq : ¬ (c = dquote)) (hsq : ¬ (c = squote)) (hh : ¬ (c = '#'))
    (h : lexOther c rest line col = .ok (tk, r3, l3, c3)) :
    tk.value.data ++ r3 = c :: rest := by
  simp only [lexOther] at h
  rw [if_neg hq, if_neg hsq] at h
  by_cases hdig : c.isDigit = true
  · rw [if_pos hdig] at h
    cases h
    simp [List.takeWhile_append_dropWhile]
  · rw [if_neg (by simp [hdig])] at h
    by_cases hal : (c.isAlpha || decide (c = '_')) = true
    · rw [if_pos hal] at h
      cases hk : keywords (String.mk (List.map Char.toLower (List.takeWhile idChar (c :: rest)))) with
      | some k =>
        rw [hk] at h; cases h
        simp [List.takeWhile_append_dropWhile]
      | none =>
        rw [hk] at h; cases h
        simp [List.takeWhile_append_dropWhile]
    · rw [if_neg hal, if_neg hh] at h
      by_cases hlen : (c :: rest).length ≥ 3
      · rw [if_pos hlen] at h
        cases ho : operators (String.mk ((c :: rest).take 3)) with
        | some k =>
          rw [ho] at h; cases h
          simp [List.take_append_drop]
        | none =>
          rw [ho] at h
          exact lexOp_text _ line col tk r3 l3 c3 h
      · rw [if_neg hlen] at h
        exact lexOp_text _ line col tk r3 l3 c3 h


theorem scanBlock_append : ∀ (r : List Char) (line col : Nat),
    (scanBlock r line col).1 ++ (scanBlock r line col).2.1 = r := by
  intro r
  induction r with
  | nil => intro line col; rfl
  | cons c1 rest ih =>
    intro line col
    cases rest with
    | nil => rfl
    | cons c2 r2 =>
      by_cases h : c1 = '*' && c2 = '/'
      · simp [scanBlock, h]
      · by_cases hn : c1 = '\n'
        · simp [scanBlock, h, hn]
          simpa using ih (line + 1) 1
        · simp [scanBlock, h, hn]
          simpa using ih line (col + 1)

theorem tokFuel_line_comment (fuel : Nat) (r2 : List Char) (line col : Nat) :
    tokFuel (fuel + 1) ('/' :: '/' :: r2) line col =
      (tokFuel fuel
          (List.dropWhile (fun ch => decide ¬ (ch = '\n')) ('/' :: '/' :: r2)) line
          (col + (List.takeWhile (fun ch => decide ¬ (ch = '\n')) ('/' :: '/' :: r2)).length)).map
        (⟨.COMMENT,
          String.mk (List.takeWhile (fun ch => decide ¬ (ch = '\n')) ('/' :: '/' :: r2)),
          line, col⟩ :: ·) := by
  rfl

theorem tokFuel_block (fuel : Nat) (t : List Char) (line col : Nat) :
    tokFuel (fuel + 1) ('/' :: '*' :: t) line col =
      (tokFuel fuel (scanBlock t line (col + 2)).2.1
          (scanBlock t line (col + 2)).2.2.1
          (scanBlock t line (col + 2)).2.2.2).map
        (⟨.COMMENT_BLOCK, String.mk ('/' :: '*' :: (scanBlock t line (col + 2)).1),
          (scanBlock t line (col + 2)).2.2.1,
          (scanBlock t line (col + 2)).2.2.2⟩ :: ·) := by
  rfl

theorem concatValues_cons (t : Token) (ts : List Token) :
    concatValues (t :: ts) = t.value.data ++ concatValues ts := by
  simp [concatValues]

theorem nonWs_append (a b : List Char) : nonWs (a ++ b) = nonWs a ++ nonWs b := by
  simp [nonWs]

theorem nonWs_cons_space {c : Char} (h : isPySpace c = true) (l : List Char) :
    nonWs (c :: l) = nonWs l := by
  simp [nonWs, h]

theorem lexOther_case_roundtrip (fuel : Nat) (c : Char) (rest : List Char)
    (line col : Nat) (ts : List Token)
    (hbad : ∀ x ∈ c :: rest, ¬ (x = dquote) ∧ ¬ (x = squote) ∧ ¬ (x = '#'))
    (ih : ∀ (r' : List Char) (line' col' : Nat) (ts' : List Token),
      (∀ x ∈ r', ¬ (x = dquote) ∧ ¬ (x = squote) ∧ ¬ (x = '#')) →
      tokFuel fuel r' line' col' = .ok ts' →
      nonWs (concatValues ts') = nonWs r')
    (hok : (match lexOther c rest line col with
      | Except.error e => Except.error e
      | Except.ok (tk, r3, line3, col3) =>
        Except.map (fun x => tk :: x) (tokFuel fuel r3 line3 col3)) = Except.ok ts) :
    nonWs (concatValues ts) = nonWs (c :: rest) := by
  cases hlex : lexOther c rest line col with
  | error e => rw [hlex] at hok; cases hok
  | ok res =>
    obtain ⟨tk, r3, l3, c3⟩ := res
    simp only [hlex] at hok
    cases hrec : tokFuel fuel r3 l3 c3 with
    | error e => rw [hrec] at hok; cases hok
    | ok ts' =>
      rw [hrec] at hok
      simp only [Except.map] at hok
      cases hok
      have htx := lexOther_text c rest line col tk r3 l3 c3
        (hbad c (List.mem_cons_self c rest)).1
        (hbad c (List.mem_cons_self c rest)).2.1
        (hbad c (List.mem_cons_self c rest)).2.2 hlex
      have hbad3 : ∀ x ∈ r3, ¬ (x = dquote) ∧ ¬ (x = squote) ∧ ¬ (x = '#') :=
        fun x hx => hbad x (by rw [← htx]; exact List.mem_append_right _ hx)
      have := ih r3 l3 c3 ts' hbad3 hrec
      rw [concatValues_cons, nonWs_append, ← htx, nonWs_append, this]

/-- Round-trip invariant of the scanning loop: on sources free of
quote characters and hash signs, the concatenated token texts have
exactly the non-whitespace characters of the remaining input. -/
theorem tokFuel_roundtrip : ∀ (fuel : Nat) (r : List Char) (line col : Nat)
    (ts : List Token),
    (∀ c ∈ r, ¬ (c = dquote) ∧ ¬ (c = squote) ∧ ¬ (c = '#')) →
    tokFuel fuel r line col = .ok ts →
    nonWs (concatValues ts) = nonWs r := by
  intro fuel
  induction fuel with
  | zero =>
    intro r line col ts hbad hok
    cases r with
    | nil => cases hok; simp [concatValues, nonWs]
    | cons c rest => exact absurd hok (by simp [tokFuel])
  | succ fuel ih =>
    intro r line col ts hbad hok
    cases r with
    | nil => cases hok; simp [concatValues, nonWs]
    | cons c rest =>
      by_cases hsp : isPySpace c = true
      · -- whitespace branch, same shape for both list shapes
        by_cases hnl : c = '\n'
        · subst hnl
          cases rest with
          | nil =>
            rw [tokFuel.eq_4, if_pos hsp, if_pos rfl] at hok
            cases hrec : tokFuel fuel [] (line + 1) 1 with
            | error e => rw [hrec] at hok; cases hok
            | ok ts' =>
              rw [hrec] at hok
              simp only [Except.map] at hok
              cases hok
              have := ih [] (line + 1) 1 ts' (by intro x hx; cases hx) hrec
              rw [concatValues_cons, nonWs_append, this, nonWs_cons_space hsp]
              norm_num [nonWs, isPySpace]
          | cons n r2 =>
            rw [tokFuel.eq_3, if_pos hsp, if_pos rfl] at hok
            cases hrec : tokFuel fuel (n :: r2) (line + 1) 1 with
            | error e => rw [hrec] at hok; cases hok
            | ok ts' =>
              rw [hrec] at hok
              simp only [Except.map] at hok
              cases hok
              have := ih (n :: r2) (line + 1) 1 ts'
                (fun x hx => hbad x (List.mem_cons_of_mem _ hx)) hrec
              rw [concatValues_cons, nonWs_append, this, nonWs_cons_space hsp]
              norm_num [nonWs, isPySpace]
        · cases rest with
          | nil =>
            rw [tokFuel.eq_4, if_pos hsp, if_neg hnl] at hok
            have := ih [] line (col + 1) ts (by intro x hx; cases hx) hok
            rw [nonWs_cons_space hsp]
            exact this
          | cons n r2 =>
            rw [tokFuel.eq_3, if_pos hsp, if_neg hnl] at hok
            have := ih (n :: r2) line (col + 1) ts
              (fun x hx => hbad x (List.mem_cons_of_mem _ hx)) hok
            rw [nonWs_cons_space hsp]
            exact this
      · -- non-whitespace
        cases rest with
        | nil =>
          rw [tokFuel.eq_4, if_neg hsp] at hok
          by_cases hc : c = '/'
          · rw [if_pos hc] at hok
            exact lexOther_case_roundtrip fuel c [] line col ts hbad ih hok
          · rw [if_neg hc] at hok
            exact lexOther_case_roundtrip fuel c [] line col ts hbad ih hok
        | cons n r2 =>
          by_cases hc : c = '/'
          · subst hc
            by_cases hn : n = '/'
            · subst hn
              rw [tokFuel_line_comment] at hok
              cases hrec : tokFuel fuel
                  (List.dropWhile (fun ch => decide ¬ (ch = '\n')) ('/' :: '/' :: r2))
                  line
                  (col + (List.takeWhile (fun ch => decide ¬ (ch = '\n')) ('/' :: '/' :: r2)).length) with
              | error e => rw [hrec] at hok; cases hok
              | ok ts' =>
                rw [hrec] at hok
                simp only [Except.map] at hok
                cases hok
                have hsplit := List.takeWhile_append_dropWhile
                  (p := fun ch => decide ¬ (ch = '\n')) (l := '/' :: '/' :: r2)
                have hbad3 : ∀ x ∈ List.dropWhile (fun ch => decide ¬ (ch = '\n'))
                    ('/' :: '/' :: r2),
                    ¬ (x = dquote) ∧ ¬ (x = squote) ∧ ¬ (x = '#') :=
                  fun x hx => hbad x (by rw [← hsplit]; exact List.mem_append_right _ hx)
                have := ih _ _ _ ts' hbad3 hrec
                rw [concatValues_cons, nonWs_append, this]
                conv_rhs => rw [← hsplit, nonWs_append]
            · by_cases hm : n = '*'
              · subst hm
                rw [tokFuel_block] at hok
                cases hrec : tokFuel fuel (scanBlock r2 line (col + 2)).2.1
                    (scanBlock r2 line (col + 2)).2.2.1
                    (scanBlock r2 line (col + 2)).2.2.2 with
                | error e => rw [hrec] at hok; cases hok
                | ok ts' =>
                  rw [hrec] at hok
                  simp only [Except.map] at hok
                  cases hok
                  have hsplit := scanBlock_append r2 line (col + 2)
                  have hbad3 : ∀ x ∈ (scanBlock r2 line (col + 2)).2.1,
                      ¬ (x = dquote) ∧ ¬ (x = squote) ∧ ¬ (x = '#') :=
                    fun x hx => hbad x (by
                      refine List.mem_cons_of_mem _ (List.mem_cons_of_mem _ ?_)
                      rw [← hsplit]; exact List.mem_append_right _ hx)
                  have := ih _ _ _ ts' hbad3 hrec
                  rw [concatValues_cons, nonWs_append, this]
                  conv_rhs => rw [← hsplit]
                  show nonWs ('/' :: '*' :: (scanBlock r2 line (col + 2)).1) ++ _ = _
                  rw [show ('/' :: '*' :: ((scanBlock r2 line (col + 2)).1 ++
                      (scanBlock r2 line (col + 2)).2.1) : List Char) =
                    ('/' :: '*' :: (scanBlock r2 line (col + 2)).1) ++
                      (scanBlock r2 line (col + 2)).2.1 from rfl]
                  rw [nonWs_append]
              · rw [tokFuel.eq_3, if_neg hsp, if_pos rfl, if_neg hn, if_neg hm] at hok
                exact lexOther_case_roundtrip fuel '/' (n :: r2) line col ts hbad ih hok
          · rw [tokFuel.eq_3, if_neg hsp, if_neg hc] at hok
            exact lexOther_case_roundtrip fuel c (n :: r2) line col ts hbad ih hok

/-- C3 counterexample: the source consisting of the never-closed block
comment and one trailing character does not raise; it is tokenized
into a CommentBlock token (truncated before the final character), an
Identifier for that final character, and EOF. -/
theorem c3_unterminated_comment_lexes :
    tokenize "/*x" = .ok [⟨.COMMENT_BLOCK, "/*", 1, 3⟩,
      ⟨.IDENTIFIER, "x", 1, 3⟩, ⟨.EOF, "", 1, 4⟩] := by
  rfl

/-- C3 amended: an unterminated block comment never aborts
tokenization: for any source consisting of the opener followed by
slash-free text ending in a letter, tokenize succeeds, emitting the
comment text truncated before the final character as a CommentBlock
token and then lexing that final character as an ordinary word. -/
theorem c3_amended_no_lex_error (t : List Char) (h1 : ¬ t = [])
    (h2 : ¬ ('/' ∈ t)) (h3 : (t.getLast h1).isAlpha = true) :
    ∃ ts, tokenize ("/*" ++ String.mk t) = .ok ts ∧
      ts.map (fun tk => tk.value) =
        ["/*" ++ String.mk t.dropLast, String.mk [t.getLast h1], ""] ∧
      (ts.map (fun tk => tk.type)).head? = some TokenType.COMMENT_BLOCK := by
  have hdata : ("/*" ++ String.mk t).data = '/' :: '*' :: t := by
    simp [String.data_append]
  have hlen : ("/*" ++ String.mk t).data.length = t.length + 2 := by
    rw [hdata]; simp
  have hrest : (scanBlock t 1 3).2.1 = [t.getLast h1] := by
    have happ := scanBlock_append t 1 3
    rw [scanBlock_noSlash t 1 3 h2] at happ
    have hgl := List.dropLast_append_getLast h1
    have h2x : t.dropLast ++ (scanBlock t 1 3).2.1 = t.dropLast ++ [t.getLast h1] := by
      rw [happ, hgl]
    exact List.append_cancel_left h2x
  have hcons : (scanBlock t 1 3).1 = t.dropLast := scanBlock_noSlash t 1 3 h2
  have hslash : ¬ (t.getLast h1 = '/') := fun e => h2 (e ▸ List.getLast_mem h1)
  have hvalcomment : String.mk ('/' :: '*' :: (scanBlock t 1 3).1) =
      "/*" ++ String.mk t.dropLast := by
    rw [hcons]; apply congrArg String.mk; rfl
  unfold tokenize
  rw [hlen, hdata]
  rw [tokFuel_block (t.length + 2) t 1 1]
  rw [hrest]
  rw [show t.length + 2 = (t.length + 1) + 1 from rfl,
    tokFuel_single_alpha (t.length + 1) (t.getLast h1)
      (scanBlock t 1 (1 + 2)).2.2.1 (scanBlock t 1 (1 + 2)).2.2.2 h3 hslash]
  rw [tokFuel_nil]
  cases hk : keywords (String.mk [(t.getLast h1).toLower]) with
  | none =>
    refine ⟨_, rfl, ?_, ?_⟩ <;> simp [Except.map, hvalcomment]
  | some k =>
    refine ⟨_, rfl, ?_, ?_⟩ <;> simp [Except.map, hvalcomment]

/-- Witness for the amended C3 statement at the concrete comment body. -/
theorem c3_amended_no_lex_error_witness :
    ∃ ts, tokenize ("/*" ++ String.mk ['h', 'i']) = .ok ts ∧
      ts.map (fun tk => tk.value) =
        ["/*" ++ String.mk (['h', 'i'] : List Char).dropLast,
          String.mk [(['h', 'i'] : List Char).getLast (by decide)], ""] ∧
      (ts.map (fun tk => tk.type)).head? = some TokenType.COMMENT_BLOCK :=
  c3_amended_no_lex_error ['h', 'i'] (by decide) (by decide) (by decide)

/-- C7 counterexample: a string literal loses its quotes in the token
text, so the concatenated texts miss two non-whitespace characters of
the original source. -/
theorem c7_quotes_dropped :
    tokenize "\"a\"" = .ok [⟨.STRING, "a", 1, 2⟩, ⟨.EOF, "", 1, 5⟩] ∧
    ¬ (nonWs (concatValues [⟨.STRING, "a", 1, 2⟩, ⟨.EOF, "", 1, 5⟩]) =
      nonWs (("\"a\"" : String).data)) :=
  ⟨by rfl, by decide⟩

/-- C7 amended: on every source free of double quotes, single quotes
and hash signs, a successful tokenization concatenates to a string
whose non-whitespace characters equal, in order, those of the source
(string/character literals drop their quotes and recognized
preprocessor directives drop the hash and lowercase the word, so those
characters must be excluded). -/
theorem c7_roundtrip_amended (src : String)
    (h : ∀ c ∈ src.data, ¬ (c = dquote) ∧ ¬ (c = squote) ∧ ¬ (c = '#'))
    (ts : List Token) (hok : tokenize src = .ok ts) :
    nonWs (concatValues ts) = nonWs src.data :=
  tokFuel_roundtrip (src.data.length + 1) src.data 1 1 ts h hok

/-- Witness for the amended C7 statement on a concrete source. -/
theorem c7_roundtrip_amended_witness :
    nonWs (concatValues [⟨.INT, "int", 1, 1⟩, ⟨.IDENTIFIER, "x", 1, 5⟩,
      ⟨.SEMICOLON, ";", 1, 6⟩, ⟨.EOF, "", 1, 7⟩]) =
      nonWs (("int x;" : String).data) :=
  c7_roundtrip_amended "int x;" (by decide)
    [⟨.INT, "int", 1, 1⟩, ⟨.IDENTIFIER, "x", 1, 5⟩,
      ⟨.SEMICOLON, ";", 1, 6⟩, ⟨.EOF, "", 1, 7⟩] (by rfl)


end MiniC
